import Mathlib

/-!
# Verification of the Pyodide bridge (`static/js/pyodide-bridge.js`)

A shallow embedding of the browser-side bridge module.  The bridge owns a
process-wide mutable state (the runtime handle `pyodide`, the flag
`pythonModulesLoaded`, the memoized `initializationPromise`, and the runtime's
private filesystem) and performs asynchronous external effects (booting the
runtime, `micropip` installs, network fetches, delegate invocations).  Each
external effect is modelled by an environment field giving its outcome, and
each bridge function is modelled as an explicit state transformer returning
the new state, an `Except` result (a rejected promise is `.error`), and the
ordered list of observable events it performed.
-/

namespace PyBridge

/-- A JavaScript `Error` is modelled by its message string. -/
abbrev Err := String

/- The characters the escaping model manipulates, by code point. -/

/-- The double-quote character `"`. -/
def dquoteChar : Char := Char.ofNat 34

/-- The backtick character (code point 96). -/
def btChar : Char := Char.ofNat 96

/-- The left-brace character (code point 123). -/
def lbraceChar : Char := Char.ofNat 123

/-- The backslash character. -/
def bsChar : Char := Char.ofNat 92

/-! ## The escaping performed by `parseDatamodelLogs` (source lines 152-155)

```js
const escapedLogData = logData
  .replace(/\\/g, '\\\\')
  .replace(/`/g, '\\`')
  .replace(/\$\x7b/g, '\\$\x7b');
```

Three sequential global, non-overlapping, left-to-right replacements. -/

/-- `.replace(/\\/g, '\\\\')`: double every backslash. -/
def escBackslashes : List Char → List Char
  | [] => []
  | c :: cs => if c = bsChar then bsChar :: bsChar :: escBackslashes cs
               else c :: escBackslashes cs

/-- `.replace(/`/g, '\\`')` (backtick): put a backslash before every backtick. -/
def escBackticks : List Char → List Char
  | [] => []
  | c :: cs => if c = btChar then bsChar :: btChar :: escBackticks cs
               else c :: escBackticks cs

/-- The third replace: put a backslash before every dollar-brace pair.
Fuel-based so that the definition reduces definitionally; each step consumes
at least one character, so fuel equal to the length suffices. -/
def escDollarBracesFuel : Nat → List Char → List Char
  | _, [] => []
  | 0, l => l
  | fuel + 1, c1 :: rest =>
    match rest with
    | c2 :: cs =>
      if c1 = '$' && c2 = lbraceChar then
        bsChar :: '$' :: lbraceChar :: escDollarBracesFuel fuel cs
      else c1 :: escDollarBracesFuel fuel rest
    | [] => [c1]

/-- The third replace, at adequate fuel. -/
def escDollarBraces (l : List Char) : List Char := escDollarBracesFuel l.length l

/-- The full escaping chain of `parseDatamodelLogs`, in source order. -/
def escapeLogData (s : String) : List Char :=
  escDollarBraces (escBackticks (escBackslashes s.data))

/-! ## The round trip through the runtime's script evaluator

The escaped text is interpolated into a JS template literal — interpolated
values are inserted verbatim, with no escape processing — so the Python
script handed to `runPython` contains the escaped text verbatim between
triple double quotes: `log_data_str = """<escaped>"""`.  Python then parses
that triple-quoted string literal: the literal's body ends at the first
unescaped run of three double quotes, and recognized escape sequences are
decoded while unrecognized ones keep their backslash. -/

/-- Value of a hex digit, if `c` is one (code points 48-57, 97-102, 65-70). -/
def hexVal (c : Char) : Option Nat :=
  let n := c.toNat
  if 48 ≤ n && n ≤ 57 then some (n - 48)
  else if 97 ≤ n && n ≤ 102 then some (n - 87)
  else if 65 ≤ n && n ≤ 70 then some (n - 55)
  else none

/-- Read exactly `n` hex digits, returning their value and the rest. -/
def hexN : Nat → List Char → Option (Nat × List Char)
  | 0, l => some (0, l)
  | _ + 1, [] => none
  | n + 1, c :: rest =>
    match hexVal c, hexN n rest with
    | some x, some (y, r) => some (x * 16 ^ n + y, r)
    | _, _ => none

/-- Is `c` an octal digit? -/
def isOctDigit (c : Char) : Bool := '0' ≤ c && c ≤ '7'

/-- Value of an octal digit. -/
def octVal (c : Char) : Nat := c.toNat - '0'.toNat

/-- A codepoint as a `Char`, when it is a valid scalar value. -/
def charOfCodepoint (n : Nat) : Option Char :=
  if n.isValidChar then some (Char.ofNat n) else none

/-- Python string-literal escape decoding on the scanned body of a literal,
with explicit fuel (the callers pass the body's length, which suffices since
every step consumes at least one character).  Recognized escapes are decoded;
an unrecognized escape keeps its backslash (CPython behaviour); a malformed
`\x`/`\u`/`\U` escape is a syntax error (`none`).  `\N` name lookup is not
modelled and mapped to `none`; it is unreachable from escaped inputs, since
every backslash `escapeLogData` emits precedes a backslash, a backtick, or a
dollar sign. -/
def pyUnescapeFuel : Nat → List Char → Option (List Char)
  | _, [] => some []
  | 0, _ :: _ => none
  | fuel + 1, c :: cs =>
    if c ≠ bsChar then (pyUnescapeFuel fuel cs).map (c :: ·)
    else
      match cs with
      | [] => none
      | e :: cs2 =>
        if e = bsChar then (pyUnescapeFuel fuel cs2).map (bsChar :: ·)
        else if e = '\'' then (pyUnescapeFuel fuel cs2).map ('\'' :: ·)
        else if e = dquoteChar then (pyUnescapeFuel fuel cs2).map (dquoteChar :: ·)
        else if e = 'a' then (pyUnescapeFuel fuel cs2).map (Char.ofNat 7 :: ·)
        else if e = 'b' then (pyUnescapeFuel fuel cs2).map (Char.ofNat 8 :: ·)
        else if e = 'f' then (pyUnescapeFuel fuel cs2).map (Char.ofNat 12 :: ·)
        else if e = 'n' then (pyUnescapeFuel fuel cs2).map (Char.ofNat 10 :: ·)
        else if e = 'r' then (pyUnescapeFuel fuel cs2).map (Char.ofNat 13 :: ·)
        else if e = 't' then (pyUnescapeFuel fuel cs2).map (Char.ofNat 9 :: ·)
        else if e = 'v' then (pyUnescapeFuel fuel cs2).map (Char.ofNat 11 :: ·)
        else if e = Char.ofNat 10 then pyUnescapeFuel fuel cs2
        else if isOctDigit e then
          match cs2 with
          | d2 :: cs3 =>
            if isOctDigit d2 then
              match cs3 with
              | d3 :: cs4 =>
                if isOctDigit d3 then
                  (pyUnescapeFuel fuel cs4).map
                    (Char.ofNat (64 * octVal e + 8 * octVal d2 + octVal d3) :: ·)
                else
                  (pyUnescapeFuel fuel cs3).map
                    (Char.ofNat (8 * octVal e + octVal d2) :: ·)
              | [] => some [Char.ofNat (8 * octVal e + octVal d2)]
            else (pyUnescapeFuel fuel cs2).map (Char.ofNat (octVal e) :: ·)
          | [] => some [Char.ofNat (octVal e)]
        else if e = 'x' then
          match hexN 2 cs2 with
          | some (n, rest) =>
            match charOfCodepoint n with
            | some ch => (pyUnescapeFuel fuel rest).map (ch :: ·)
            | none => none
          | none => none
        else if e = 'u' then
          match hexN 4 cs2 with
          | some (n, rest) =>
            match charOfCodepoint n with
            | some ch => (pyUnescapeFuel fuel rest).map (ch :: ·)
            | none => none
          | none => none
        else if e = 'U' then
          match hexN 8 cs2 with
          | some (n, rest) =>
            match charOfCodepoint n with
            | some ch => (pyUnescapeFuel fuel rest).map (ch :: ·)
            | none => none
          | none => none
        else if e = 'N' then none
        else (pyUnescapeFuel fuel cs2).map (fun l => bsChar :: e :: l)

/-- Scan the raw body of a Python triple-double-quoted literal: consume
characters (a backslash always takes the following character with it) until
the first unescaped run of three double quotes, returning the raw body and
the input remaining after the closing delimiter.  Fuel-based; each step
consumes at least one character. -/
def scanTripleFuel : Nat → List Char → Option (List Char × List Char)
  | _, [] => none
  | 0, _ :: _ => none
  | fuel + 1, c :: cs =>
    if c = bsChar then
      match cs with
      | [] => none
      | c2 :: cs2 =>
        match scanTripleFuel fuel cs2 with
        | some (body, rest) => some (c :: c2 :: body, rest)
        | none => none
    else if c = dquoteChar then
      match cs with
      | c2 :: c3 :: rest =>
        if c2 = dquoteChar && c3 = dquoteChar then some ([], rest)
        else
          match scanTripleFuel fuel cs with
          | some (body, rest') => some (c :: body, rest')
          | none => none
      | _ =>
        match scanTripleFuel fuel cs with
        | some (body, rest') => some (c :: body, rest')
        | none => none
    else
      match scanTripleFuel fuel cs with
      | some (body, rest') => some (c :: body, rest')
      | none => none

/-- The scanner, at adequate fuel. -/
def scanTriple (l : List Char) : Option (List Char × List Char) :=
  scanTripleFuel l.length l

/-- The Python string value produced by evaluating `"""<content>"""`:
scan for the closing delimiter, require that nothing trails it (a premature
delimiter inside `content` leaves trailing garbage, which we conservatively
model as a syntax error), then decode escapes.  `none` models the
`runPython` call throwing. -/
def pythonTripleQuotedValue (content : List Char) : Option (List Char) :=
  match scanTriple (content ++ [dquoteChar, dquoteChar, dquoteChar]) with
  | some (body, []) => pyUnescapeFuel body.length body
  | _ => none

/-- The string bound to `log_data_str` on the Python side — i.e. the text the
delegate `parse_datamodel_logs` is handed — as a function of the original
`logData` argument: escape, interpolate verbatim, parse as a Python
triple-quoted literal. -/
def deliveredLogText (logData : String) : Option String :=
  (pythonTripleQuotedValue (escapeLogData logData)).map String.mk

/-! ## The bridge state machine

Module-level mutable state (source lines 6-7, 265):

```js
let pyodide = null;
let pythonModulesLoaded = false;
let initializationPromise = null;
```

The runtime handle is modelled by a `Nat` identifier; the memoized
initialization promise by the settled value it eventually takes. -/

/-- Outcome of one `fetch` of a per-version validation-data document
(source lines 96-99): a reply with `response.ok` and a body, a reply with
`response.ok` false, or a thrown network error. -/
inductive FetchOutcome where
  | success (body : String)
  | httpNotOk
  | failed (e : Err)

/-- Outcomes of the asynchronous external effects initialization performs,
one field per effect in source order: booting the runtime (line 16), the
`pyodide-http` shim install (lines 23-28), `window.DMV_PACKAGE_URL`
(line 35), the wheel install (lines 39-42), the PyPI install (lines 64-68),
the `os.makedirs` script (lines 84-91), the per-version fetches
(lines 94-104), and the data-loader patch script (lines 108-132). -/
structure InitEnv where
  loadPyodideResult : Except Err Nat
  httpShimResult : Except Err Unit
  packageUrl : Option String
  wheelInstallResult : Except Err Unit
  pypiInstallResult : Except Err Unit
  mkdirResult : Except Err Unit
  fetchOutcome : String → FetchOutcome
  patchResult : Except Err Unit

/-- Observable events of a bridge run, in execution order. -/
inductive Event where
  | loadPyodideCall
  | httpShimInstall
  | wheelInstall (url : String)
  | pypiInstall
  | fetchAttempt (version : String)
  | fsWrite (path : String)
  | patchApplied
  | delegateCall (functionName : String)
deriving DecidableEq

/-- The bridge module's mutable state. -/
structure BridgeState where
  pyodide : Option Nat
  pythonModulesLoaded : Bool
  initializationPromise : Option (Except Err Nat)
  fs : List (String × String)

/-- The state at page load. -/
def initialState : BridgeState :=
  { pyodide := none, pythonModulesLoaded := false,
    initializationPromise := none, fs := [] }

/-- The fixed version-label set (source line 81). -/
def validationDataVersions : List String :=
  ["1.2", "1.3", "1.4", "1.4.1", "1.4.2", "1.5", "master"]

/-- The Pyodide-filesystem path for one version's data (source line 99). -/
def dataPath (version : String) : String :=
  "/data/validation_data_" ++ version ++ ".json"

/-- The file (if any) that one iteration of the fetch loop writes: the
document is written only when the fetch succeeds with `response.ok`; a
not-ok reply is skipped silently and a thrown fetch is caught, logged, and
skipped (source lines 94-104). -/
def fetchWritesFor (env : InitEnv) (v : String) : List (String × String) :=
  match env.fetchOutcome v with
  | .success body => [(dataPath v, body)]
  | _ => []

/-- The events of one iteration of the fetch loop. -/
def fetchEventsFor (env : InitEnv) (v : String) : List Event :=
  match env.fetchOutcome v with
  | .success _ => [.fetchAttempt v, .fsWrite (dataPath v)]
  | _ => [.fetchAttempt v]

/-- All files written by the fetch loop, in loop order. -/
def fetchAllWrites (env : InitEnv) : List (String × String) :=
  (validationDataVersions.map (fetchWritesFor env)).flatten

/-- All events of the fetch loop, in loop order. -/
def fetchAllEvents (env : InitEnv) : List Event :=
  (validationDataVersions.map (fetchEventsFor env)).flatten

/-- The error thrown when neither install strategy produced the package
(source line 77). -/
def packageNotAvailableMsg : Err :=
  "Python package not available. Please configure DMV_PACKAGE_URL or ensure package is installable."

/-- `loadBundledModules()` (source lines 58-140).  The inner try installs
from PyPI; on success `pythonModulesLoaded` is set **immediately**
(line 69); on failure the inner catch throws the not-available error, which
the outer catch logs and rethrows.  Then the data directory is created, the
per-version fetch loop runs (per-item failures skipped), the data-loader
patch script runs, and the flag is set again (line 134). -/
def loadBundledModules (st : BridgeState) (env : InitEnv) :
    BridgeState × Except Err Unit × List Event :=
  match env.pypiInstallResult with
  | .error _ => (st, .error packageNotAvailableMsg, [.pypiInstall])
  | .ok _ =>
    let st1 : BridgeState := { st with pythonModulesLoaded := true }
    match env.mkdirResult with
    | .error e => (st1, .error e, [.pypiInstall])
    | .ok _ =>
      let st2 : BridgeState := { st1 with fs := st1.fs ++ fetchAllWrites env }
      match env.patchResult with
      | .error e => (st2, .error e, .pypiInstall :: fetchAllEvents env)
      | .ok _ =>
        ({ st2 with pythonModulesLoaded := true }, .ok (),
         .pypiInstall :: (fetchAllEvents env ++ [.patchApplied]))

/-- `initializePyodide()` (source lines 10-55).  Returns immediately when
the handle already exists (lines 11-13); otherwise boots the runtime
(setting the module-level `pyodide` as soon as the boot resolves), installs
the HTTP shim, then: with a configured `DMV_PACKAGE_URL`, tries the wheel
install, setting `pythonModulesLoaded` directly on success (line 43) and
falling back to `loadBundledModules()` on failure; without one, goes
straight to `loadBundledModules()`. -/
def initializePyodide (st : BridgeState) (env : InitEnv) :
    BridgeState × Except Err Nat × List Event :=
  match st.pyodide with
  | some h => (st, .ok h, [])
  | none =>
    match env.loadPyodideResult with
    | .error e => (st, .error e, [.loadPyodideCall])
    | .ok h =>
      let st1 : BridgeState := { st with pyodide := some h }
      match env.httpShimResult with
      | .error e => (st1, .error e, [.loadPyodideCall, .httpShimInstall])
      | .ok _ =>
        match env.packageUrl with
        | some url =>
          match env.wheelInstallResult with
          | .ok _ =>
            ({ st1 with pythonModulesLoaded := true }, .ok h,
             [.loadPyodideCall, .httpShimInstall, .wheelInstall url])
          | .error _ =>
            let r := loadBundledModules st1 env
            (r.1, r.2.1.map fun _ => h,
             [.loadPyodideCall, .httpShimInstall, .wheelInstall url] ++ r.2.2)
        | none =>
          let r := loadBundledModules st1 env
          (r.1, r.2.1.map fun _ => h,
           [.loadPyodideCall, .httpShimInstall] ++ r.2.2)

/-- The error message thrown by `ensurePyodideReady` when the handle exists
but the modules are not loaded (source line 260). -/
def notLoadedMsg : Err := "Python modules not loaded"

/-- `ensurePyodideReady()` (source lines 255-262).  Note that it calls
`initializePyodide()` directly — not the memoized `getPyodide()` — whenever
the handle is absent. -/
def ensurePyodideReady (st : BridgeState) (env : InitEnv) :
    BridgeState × Except Err Unit × List Event :=
  match st.pyodide with
  | none =>
    let r := initializePyodide st env
    match r.2.1 with
    | .error e => (r.1, .error e, r.2.2)
    | .ok _ =>
      if r.1.pythonModulesLoaded then (r.1, .ok (), r.2.2)
      else (r.1, .error notLoadedMsg, r.2.2)
  | some _ =>
    if st.pythonModulesLoaded then (st, .ok (), [])
    else (st, .error notLoadedMsg, [])

/-- `getPyodide()` (source lines 267-272): memoizes the initialization
promise, modelled here by its settled value. -/
def getPyodide (st : BridgeState) (env : InitEnv) :
    BridgeState × Except Err Nat × List Event :=
  match st.initializationPromise with
  | some r => (st, r, [])
  | none =>
    let r := initializePyodide st env
    ({ r.1 with initializationPromise := some r.2.1 }, r.2.1, r.2.2)

/-! ## The four remote-call wrappers

JSON values produced by `JSON.parse` of a delegate's `json.dumps` output.
`JSON.parse` and `JSON.stringify` themselves are external built-ins and are
given by environment oracles. -/

/-- A JavaScript value produced by `JSON.parse` of a delegate's `json.dumps`
output.  Integral numbers suffice here: every concrete value in the claims is
a string or a list of strings. -/
inductive JsonValue where
  | jstr (s : String)
  | jarr (elements : List JsonValue)
  | jobj (pairs : List (String × JsonValue))
  | jnum (n : Int)
  | jbool (b : Bool)
  | jnull

/-- The message of the error a failing `runPython` of the `log_data_str`
assignment raises (a Python `SyntaxError`); the exact text is irrelevant to
every property below. -/
def pySyntaxMsg : Err := "SyntaxError: invalid syntax"

/-- Environment of one `parseDatamodelLogs` call: the delegate
`parse_datamodel_logs` as a function of the string it is handed (returning
the `json.dumps` text or raising), and the `JSON.parse` built-in. -/
structure ParseCallEnv where
  initEnv : InitEnv
  delegate : String → Except Err String
  jsonParse : String → Except Err JsonValue

/-- `parseDatamodelLogs(logData)` (source lines 147-176).  `ensurePyodideReady`
is awaited **outside** the try, so its errors propagate unwrapped; everything
inside the try — the escaping, the `log_data_str` assignment script, the
delegate script, and `JSON.parse` — has its error rethrown as
`Failed to parse logs: <message>`. -/
def parseDatamodelLogs (st : BridgeState) (env : ParseCallEnv) (logData : String) :
    BridgeState × Except Err JsonValue × List Event :=
  let er := ensurePyodideReady st env.initEnv
  match er.2.1 with
  | .error e => (er.1, .error e, er.2.2)
  | .ok _ =>
    match deliveredLogText logData with
    | none => (er.1, .error ("Failed to parse logs: " ++ pySyntaxMsg), er.2.2)
    | some s =>
      let tr := er.2.2 ++ [.delegateCall "parse_datamodel_logs"]
      match env.delegate s with
      | .error e => (er.1, .error ("Failed to parse logs: " ++ e), tr)
      | .ok jsonText =>
        match env.jsonParse jsonText with
        | .error e => (er.1, .error ("Failed to parse logs: " ++ e), tr)
        | .ok v => (er.1, .ok v, tr)

/-- Environment of one `detectSpecVersion` call: the outcome of
`JSON.stringify(parsedData)` and the raw Python-level return of
`detect_spec_version_from_parsed_data` (`none` models Python `None`). -/
structure DetectCallEnv where
  initEnv : InitEnv
  stringifyResult : Except Err String
  delegateRaw : Except Err (Option String)

/-- The final expression of the detection script,
`version if version else "master"`: Python falsiness of `None` and the empty
string. -/
def pyVersionOrMaster : Option String → String
  | none => "master"
  | some s => if s = "" then "master" else s

/-- `detectSpecVersion(parsedData)` (source lines 181-202).  All errors
inside the try — stringify, the delegate script — are swallowed and `null`
is returned; the ready check is outside the try. -/
def detectSpecVersion (st : BridgeState) (env : DetectCallEnv) :
    BridgeState × Except Err (Option String) × List Event :=
  let er := ensurePyodideReady st env.initEnv
  match er.2.1 with
  | .error e => (er.1, .error e, er.2.2)
  | .ok _ =>
    match env.stringifyResult with
    | .error _ => (er.1, .ok none, er.2.2)
    | .ok _ =>
      let tr := er.2.2 ++ [.delegateCall "detect_spec_version_from_parsed_data"]
      match env.delegateRaw with
      | .error _ => (er.1, .ok none, tr)
      | .ok v => (er.1, .ok (some (pyVersionOrMaster v)), tr)

/-- Environment of one `validateDeviceConformance` call. -/
structure ValidateCallEnv where
  initEnv : InitEnv
  stringifyResult : Except Err String
  delegate : String → String → Except Err String
  jsonParse : String → Except Err JsonValue

/-- `validateDeviceConformance(parsedData, specVersion)` (source
lines 207-231).  Everything inside the try has its error rethrown as
`Validation failed: <message>`. -/
def validateDeviceConformance (st : BridgeState) (env : ValidateCallEnv)
    (specVersion : String) : BridgeState × Except Err JsonValue × List Event :=
  let er := ensurePyodideReady st env.initEnv
  match er.2.1 with
  | .error e => (er.1, .error e, er.2.2)
  | .ok _ =>
    match env.stringifyResult with
    | .error e => (er.1, .error ("Validation failed: " ++ e), er.2.2)
    | .ok pdJson =>
      let tr := er.2.2 ++ [.delegateCall "validate_device_conformance"]
      match env.delegate pdJson specVersion with
      | .error e => (er.1, .error ("Validation failed: " ++ e), tr)
      | .ok jsonText =>
        match env.jsonParse jsonText with
        | .error e => (er.1, .error ("Validation failed: " ++ e), tr)
        | .ok v => (er.1, .ok v, tr)

/-- Environment of one `getSupportedVersions` call. -/
structure VersionsCallEnv where
  initEnv : InitEnv
  delegateResult : Except Err String
  jsonParse : String → Except Err JsonValue

/-- The hardcoded fallback list (source line 250). -/
def fallbackVersions : JsonValue :=
  .jarr [.jstr "1.2", .jstr "1.3", .jstr "1.4", .jstr "1.4.1", .jstr "1.4.2",
         .jstr "1.5", .jstr "master"]

/-- `getSupportedVersions()` (source lines 236-252).  Everything inside the
try — the delegate script reading `SUPPORTED_SPEC_VERSIONS` and
`JSON.parse` — falls back to the hardcoded list; the ready check is outside
the try. -/
def getSupportedVersions (st : BridgeState) (env : VersionsCallEnv) :
    BridgeState × Except Err JsonValue × List Event :=
  let er := ensurePyodideReady st env.initEnv
  match er.2.1 with
  | .error e => (er.1, .error e, er.2.2)
  | .ok _ =>
    let tr := er.2.2 ++ [.delegateCall "SUPPORTED_SPEC_VERSIONS"]
    match env.delegateResult with
    | .error _ => (er.1, .ok fallbackVersions, tr)
    | .ok s =>
      match env.jsonParse s with
      | .error _ => (er.1, .ok fallbackVersions, tr)
      | .ok v => (er.1, .ok v, tr)

/-! ## Concrete environments and reachable states -/

/-- Every version's document fetches successfully. -/
def fetchAllOk : String → FetchOutcome := fun v => .success ("data-" ++ v)

/-- An all-success run with no configured package URL. -/
def envAllGood : InitEnv :=
  { loadPyodideResult := .ok 1, httpShimResult := .ok (), packageUrl := none,
    wheelInstallResult := .ok (), pypiInstallResult := .ok (),
    mkdirResult := .ok (), fetchOutcome := fetchAllOk, patchResult := .ok () }

/-- The state after a fully successful auto-initialization. -/
def loadedState : BridgeState := (getPyodide initialState envAllGood).1

/-- A run whose runtime boot fails. -/
def envBootFail : InitEnv := { envAllGood with loadPyodideResult := .error "boot failed" }

/-- The state after an auto-initialization whose boot failed. -/
def stBootFail : BridgeState := (getPyodide initialState envBootFail).1

/-- A run where both install strategies are unavailable: no configured URL,
and the PyPI install fails. -/
def envPypiFail : InitEnv := { envAllGood with pypiInstallResult := .error "pypi unreachable" }

/-- The state after an auto-initialization that failed at package install:
the handle exists but the modules never loaded. -/
def stPypiFail : BridgeState := (getPyodide initialState envPypiFail).1

/-- A run that fails at the data-loader patch script, after the PyPI install
already set `pythonModulesLoaded`. -/
def envPatchFail : InitEnv := { envAllGood with patchResult := .error "patch script raised" }

/-- The state after an auto-initialization that failed at the patch script:
the lifecycle is Failed, yet the modules flag is already true. -/
def stPatchFail : BridgeState := (getPyodide initialState envPatchFail).1

/-- A run with a configured package URL whose wheel install succeeds. -/
def envWheelOk : InitEnv :=
  { envAllGood with packageUrl := some "https://example.com/dmv_tool.whl" }

/-- A benign call environment whose delegates all succeed. -/
def parseEnvGood : ParseCallEnv :=
  { initEnv := envAllGood, delegate := fun _ => .ok "[]",
    jsonParse := fun _ => .ok (.jarr []) }

/-- A parse-call environment whose delegate raises. -/
def parseEnvFail : ParseCallEnv :=
  { initEnv := envAllGood, delegate := fun _ => .error "boom",
    jsonParse := fun _ => .ok (.jarr []) }

/-- A parse-call environment whose delegate succeeds only when handed the
single-backtick text unchanged. -/
def parseEnvEcho : ParseCallEnv :=
  { initEnv := envAllGood,
    delegate := fun s =>
      if s = String.mk [btChar] then .ok "[]" else .error "delegate saw altered text",
    jsonParse := fun _ => .ok (.jarr []) }

/-- A benign detect-call environment. -/
def detectEnvGood : DetectCallEnv :=
  { initEnv := envAllGood, stringifyResult := .ok "[]",
    delegateRaw := .ok (some "1.4") }

/-- A detect-call environment whose delegate raises. -/
def detectEnvFail : DetectCallEnv :=
  { initEnv := envAllGood, stringifyResult := .ok "[]",
    delegateRaw := .error "delegate raised" }

/-- A detect-call environment whose delegate returns Python `None`. -/
def detectEnvNone : DetectCallEnv :=
  { initEnv := envAllGood, stringifyResult := .ok "[]", delegateRaw := .ok none }

/-- A benign validate-call environment. -/
def validateEnvGood : ValidateCallEnv :=
  { initEnv := envAllGood, stringifyResult := .ok "[]",
    delegate := fun _ _ => .ok "[]", jsonParse := fun _ => .ok (.jarr []) }

/-- A validate-call environment whose delegate raises. -/
def validateEnvFail : ValidateCallEnv :=
  { initEnv := envAllGood, stringifyResult := .ok "[]",
    delegate := fun _ _ => .error "boom", jsonParse := fun _ => .ok (.jarr []) }

/-- A benign versions-call environment. -/
def versionsEnvGood : VersionsCallEnv :=
  { initEnv := envAllGood, delegateResult := .ok "[]",
    jsonParse := fun _ => .ok (.jarr []) }

/-- A versions-call environment whose delegate raises. -/
def versionsEnvFail : VersionsCallEnv :=
  { initEnv := envAllGood, delegateResult := .error "delegate raised",
    jsonParse := fun _ => .ok (.jarr []) }

/-- A versions-call environment whose delegate succeeds but whose result
text fails to parse as JSON. -/
def versionsEnvBadJson : VersionsCallEnv :=
  { initEnv := envAllGood, delegateResult := .ok "not json",
    jsonParse := fun _ => .error "Unexpected token" }

/-- A run where both install strategies fail: the configured wheel URL 404s
and the PyPI install fails too. -/
def envBothInstallsFail : InitEnv :=
  { envAllGood with
    packageUrl := some "https://example.com/dmv_tool.whl",
    wheelInstallResult := .error "wheel 404",
    pypiInstallResult := .error "pypi down" }

/-- A run where the fetch of the `1.4.1` document fails and every other
fetch succeeds. -/
def env141FetchFail : InitEnv :=
  { envAllGood with
    fetchOutcome := fun v =>
      if v = "1.4.1" then .failed "network error" else .success ("data-" ++ v) }

/-! ## Helper lemmas -/

/-- The fetch loop performs no delegate invocation. -/
theorem fetchAllEvents_no_delegate (env : InitEnv) (m : String) :
    Event.delegateCall m ∉ fetchAllEvents env := by
  unfold fetchAllEvents
  intro hmem
  rw [List.mem_flatten] at hmem
  obtain ⟨l, hl, hml⟩ := hmem
  rw [List.mem_map] at hl
  obtain ⟨v, _, rfl⟩ := hl
  unfold fetchEventsFor at hml
  cases h : env.fetchOutcome v <;> rw [h] at hml <;> simp at hml

/-- `loadBundledModules` never touches the runtime handle. -/
theorem loadBundledModules_pyodide (st : BridgeState) (env : InitEnv) :
    (loadBundledModules st env).1.pyodide = st.pyodide := by
  obtain ⟨bootr, shimr, url, wheelr, pypir, mkdr, fo, patchr⟩ := env
  cases pypir <;> cases mkdr <;> cases patchr <;> rfl

/-- `loadBundledModules` performs no delegate invocation. -/
theorem loadBundledModules_no_delegate (st : BridgeState) (env : InitEnv) (m : String) :
    Event.delegateCall m ∉ (loadBundledModules st env).2.2 := by
  have hf := fetchAllEvents_no_delegate env m
  obtain ⟨bootr, shimr, url, wheelr, pypir, mkdr, fo, patchr⟩ := env
  cases pypir <;> cases mkdr <;> cases patchr <;>
    simp_all [loadBundledModules, fetchAllEvents]

/-- When initialization resolves with a handle, the module-level `pyodide`
holds exactly that handle. -/
theorem initializePyodide_ok_pyodide (st : BridgeState) (env : InitEnv) (h : Nat)
    (hk : (initializePyodide st env).2.1 = .ok h) :
    (initializePyodide st env).1.pyodide = some h := by
  obtain ⟨py, flag, promise, fs⟩ := st
  cases py with
  | some k =>
    simp [initializePyodide] at hk ⊢
    exact hk
  | none =>
    cases hboot : env.loadPyodideResult with
    | error e => simp [initializePyodide, hboot] at hk
    | ok h0 =>
      cases hshim : env.httpShimResult with
      | error e => simp [initializePyodide, hboot, hshim] at hk
      | ok u =>
        have hb := loadBundledModules_pyodide ⟨some h0, flag, promise, fs⟩ env
        cases hurl : env.packageUrl with
        | none =>
          simp [initializePyodide, hboot, hshim, hurl] at hk ⊢
          cases hl : (loadBundledModules ⟨some h0, flag, promise, fs⟩ env).2.1 with
          | error e => simp [hl, Except.map] at hk
          | ok v =>
            simp [hl, Except.map] at hk
            subst hk
            simp [hb]
        | some url =>
          cases hw : env.wheelInstallResult with
          | ok _ =>
            simp [initializePyodide, hboot, hshim, hurl, hw] at hk ⊢
            exact hk
          | error e' =>
            simp [initializePyodide, hboot, hshim, hurl, hw] at hk ⊢
            cases hl : (loadBundledModules ⟨some h0, flag, promise, fs⟩ env).2.1 with
            | error e => simp [hl, Except.map] at hk
            | ok v =>
              simp [hl, Except.map] at hk
              subst hk
              simp [hb]

/-- Initialization performs no delegate invocation. -/
theorem initializePyodide_no_delegate (st : BridgeState) (env : InitEnv) (m : String) :
    Event.delegateCall m ∉ (initializePyodide st env).2.2 := by
  obtain ⟨py, flag, promise, fs⟩ := st
  cases py with
  | some k => simp [initializePyodide]
  | none =>
    cases hboot : env.loadPyodideResult with
    | error e => simp [initializePyodide, hboot]
    | ok h0 =>
      cases hshim : env.httpShimResult with
      | error e => simp [initializePyodide, hboot, hshim]
      | ok u =>
        have hb := loadBundledModules_no_delegate ⟨some h0, flag, promise, fs⟩ env m
        cases hurl : env.packageUrl with
        | none => simp [initializePyodide, hboot, hshim, hurl, hb]
        | some url =>
          cases hw : env.wheelInstallResult with
          | ok _ => simp [initializePyodide, hboot, hshim, hurl, hw]
          | error e' => simp [initializePyodide, hboot, hshim, hurl, hw, hb]

/-- `ensurePyodideReady` performs no delegate invocation. -/
theorem ensurePyodideReady_no_delegate (st : BridgeState) (env : InitEnv) (m : String) :
    Event.delegateCall m ∉ (ensurePyodideReady st env).2.2 := by
  have hi := initializePyodide_no_delegate st env m
  cases hp : st.pyodide with
  | none =>
    cases hr : (initializePyodide st env).2.1 with
    | error e => simp [ensurePyodideReady, hp, hr, hi]
    | ok u =>
      by_cases hf : (initializePyodide st env).1.pythonModulesLoaded = true <;>
        simp [ensurePyodideReady, hp, hr, hf, hi]
  | some k =>
    by_cases hf : st.pythonModulesLoaded = true <;>
      simp [ensurePyodideReady, hp, hf]

/-- If `ensurePyodideReady` resolves, the post-state has the modules flag set
and the runtime handle present. -/
theorem ensurePyodideReady_ok_state (st : BridgeState) (env : InitEnv)
    (hok : (ensurePyodideReady st env).2.1 = .ok ()) :
    (ensurePyodideReady st env).1.pythonModulesLoaded = true ∧
    (ensurePyodideReady st env).1.pyodide.isSome = true := by
  cases hp : st.pyodide with
  | none =>
    cases hr : (initializePyodide st env).2.1 with
    | error e => simp [ensurePyodideReady, hp, hr] at hok
    | ok u =>
      have hpy := initializePyodide_ok_pyodide st env u hr
      by_cases hf : (initializePyodide st env).1.pythonModulesLoaded = true
      · simp [ensurePyodideReady, hp, hr, hf, hpy]
      · simp [ensurePyodideReady, hp, hr, hf] at hok
  | some k =>
    by_cases hf : st.pythonModulesLoaded = true
    · simp [ensurePyodideReady, hp, hf]
    · simp [ensurePyodideReady, hp, hf] at hok

/-- With the handle present and the modules loaded, `ensurePyodideReady`
resolves without side effects. -/
theorem ensurePyodideReady_loaded (st : BridgeState) (env : InitEnv) (k : Nat)
    (hp : st.pyodide = some k) (hl : st.pythonModulesLoaded = true) :
    ensurePyodideReady st env = (st, .ok (), []) := by
  unfold ensurePyodideReady
  rw [hp]
  simp [hl]

/-- With the handle present but the modules not loaded, `ensurePyodideReady`
throws the not-loaded error without side effects. -/
theorem ensurePyodideReady_not_loaded (st : BridgeState) (env : InitEnv) (k : Nat)
    (hp : st.pyodide = some k) (hl : st.pythonModulesLoaded = false) :
    ensurePyodideReady st env = (st, .error notLoadedMsg, []) := by
  unfold ensurePyodideReady
  rw [hp]
  simp [hl]

/-! ## Claim theorems -/

/-- C1 (counterexample): the delegate can be invoked while the lifecycle is
Failed.  In a run whose data-loader patch script raises after the PyPI
install already set `pythonModulesLoaded`, the memoized initialization
promise is rejected, yet a subsequent `parseDatamodelLogs` call passes the
ready check, invokes the delegate, and succeeds. -/
theorem delegate_runs_while_lifecycle_failed :
    stPatchFail.initializationPromise = some (.error "patch script raised")
  ∧ Event.delegateCall "parse_datamodel_logs" ∈
      (parseDatamodelLogs stPatchFail parseEnvGood "log").2.2
  ∧ (parseDatamodelLogs stPatchFail parseEnvGood "log").2.1 = .ok (.jarr []) := by
  refine ⟨rfl, by decide, rfl⟩

/-- C1 (amended): for every remote call wrapper, a delegate invocation
occurs only if, after the ready check, the runtime handle is present and
`pythonModulesLoaded` is true; and whenever the handle is present but the
modules are not loaded, every wrapper fails fast with the distinguishable
`Python modules not loaded` error and performs nothing. -/
theorem remote_call_gating (st : BridgeState) (pe : ParseCallEnv)
    (de : DetectCallEnv) (ve : ValidateCallEnv) (ge : VersionsCallEnv)
    (logText sv m : String) :
    (Event.delegateCall m ∈ (parseDatamodelLogs st pe logText).2.2 →
       (ensurePyodideReady st pe.initEnv).1.pythonModulesLoaded = true ∧
       (ensurePyodideReady st pe.initEnv).1.pyodide.isSome = true)
  ∧ (Event.delegateCall m ∈ (detectSpecVersion st de).2.2 →
       (ensurePyodideReady st de.initEnv).1.pythonModulesLoaded = true ∧
       (ensurePyodideReady st de.initEnv).1.pyodide.isSome = true)
  ∧ (Event.delegateCall m ∈ (validateDeviceConformance st ve sv).2.2 →
       (ensurePyodideReady st ve.initEnv).1.pythonModulesLoaded = true ∧
       (ensurePyodideReady st ve.initEnv).1.pyodide.isSome = true)
  ∧ (Event.delegateCall m ∈ (getSupportedVersions st ge).2.2 →
       (ensurePyodideReady st ge.initEnv).1.pythonModulesLoaded = true ∧
       (ensurePyodideReady st ge.initEnv).1.pyodide.isSome = true)
  ∧ (∀ k, st.pyodide = some k → st.pythonModulesLoaded = false →
       (parseDatamodelLogs st pe logText).2.1 = .error notLoadedMsg
     ∧ (detectSpecVersion st de).2.1 = .error notLoadedMsg
     ∧ (validateDeviceConformance st ve sv).2.1 = .error notLoadedMsg
     ∧ (getSupportedVersions st ge).2.1 = .error notLoadedMsg
     ∧ (parseDatamodelLogs st pe logText).2.2 = []
     ∧ (detectSpecVersion st de).2.2 = []
     ∧ (validateDeviceConformance st ve sv).2.2 = []
     ∧ (getSupportedVersions st ge).2.2 = []) := by
  refine ⟨?_, ?_, ?_, ?_, ?_⟩
  · intro hm
    apply ensurePyodideReady_ok_state
    cases hr : (ensurePyodideReady st pe.initEnv).2.1 with
    | ok u => cases u; rfl
    | error e =>
      exfalso
      have hnd := ensurePyodideReady_no_delegate st pe.initEnv m
      simp only [parseDatamodelLogs, hr] at hm
      exact hnd hm
  · intro hm
    apply ensurePyodideReady_ok_state
    cases hr : (ensurePyodideReady st de.initEnv).2.1 with
    | ok u => cases u; rfl
    | error e =>
      exfalso
      have hnd := ensurePyodideReady_no_delegate st de.initEnv m
      simp only [detectSpecVersion, hr] at hm
      exact hnd hm
  · intro hm
    apply ensurePyodideReady_ok_state
    cases hr : (ensurePyodideReady st ve.initEnv).2.1 with
    | ok u => cases u; rfl
    | error e =>
      exfalso
      have hnd := ensurePyodideReady_no_delegate st ve.initEnv m
      simp only [validateDeviceConformance, hr] at hm
      exact hnd hm
  · intro hm
    apply ensurePyodideReady_ok_state
    cases hr : (ensurePyodideReady st ge.initEnv).2.1 with
    | ok u => cases u; rfl
    | error e =>
      exfalso
      have hnd := ensurePyodideReady_no_delegate st ge.initEnv m
      simp only [getSupportedVersions, hr] at hm
      exact hnd hm
  · intro k hk hl
    have h1 := ensurePyodideReady_not_loaded st pe.initEnv k hk hl
    have h2 := ensurePyodideReady_not_loaded st de.initEnv k hk hl
    have h3 := ensurePyodideReady_not_loaded st ve.initEnv k hk hl
    have h4 := ensurePyodideReady_not_loaded st ge.initEnv k hk hl
    refine ⟨?_, ?_, ?_, ?_, ?_, ?_, ?_, ?_⟩ <;>
      simp [parseDatamodelLogs, detectSpecVersion, validateDeviceConformance,
            getSupportedVersions, h1, h2, h3, h4]

/-- C1 (witness): in the reachable state where the PyPI install failed —
handle present, modules not loaded — the wrappers fail fast with the
not-loaded error. -/
theorem remote_call_gating_witness :
    (parseDatamodelLogs stPypiFail parseEnvGood "log").2.1 = .error notLoadedMsg
  ∧ (detectSpecVersion stPypiFail detectEnvGood).2.1 = .error notLoadedMsg
  ∧ (validateDeviceConformance stPypiFail validateEnvGood "1.4").2.1 = .error notLoadedMsg
  ∧ (getSupportedVersions stPypiFail versionsEnvGood).2.1 = .error notLoadedMsg := by
  have h := (remote_call_gating stPypiFail parseEnvGood detectEnvGood validateEnvGood
    versionsEnvGood "log" "1.4" "f").2.2.2.2 1 rfl rfl
  exact ⟨h.1, h.2.1, h.2.2.1, h.2.2.2.1⟩

/-- C2 (counterexample): initialization is retried after a Failed lifecycle.
After an auto-initialization whose runtime boot failed — the memoized
promise is settled rejected — a `parseDatamodelLogs` call goes through
`ensurePyodideReady`, which calls `initializePyodide()` directly and re-runs
the whole initialization (the boot is attempted again and even succeeds). -/
theorem init_retried_after_failure :
    stBootFail.initializationPromise = some (.error "boot failed")
  ∧ Event.loadPyodideCall ∈ (parseDatamodelLogs stBootFail parseEnvGood "log").2.2
  ∧ (parseDatamodelLogs stBootFail parseEnvGood "log").1.pyodide = some 1 := by
  refine ⟨rfl, by decide, rfl⟩

/-- C2 (amended): `getPyodide` memoizes the initialization promise: after
any first call, the promise holds the settled result, and every later call —
under any environment, hence regardless of any further external outcomes —
returns the same state and the same settled result and performs nothing.
In particular a rejected promise is terminal for the `getPyodide` path. -/
theorem getPyodide_memoized (st : BridgeState) (env1 env2 : InitEnv) :
    (getPyodide st env1).1.initializationPromise = some (getPyodide st env1).2.1
  ∧ getPyodide (getPyodide st env1).1 env2 =
      ((getPyodide st env1).1, (getPyodide st env1).2.1, []) := by
  cases hp : st.initializationPromise with
  | some r => simp [getPyodide, hp]
  | none => simp [getPyodide, hp]

/-- C3 (counterexample): on the wheel path, `pythonModulesLoaded` is set
true although provisioning and patching are skipped entirely: the run's
whole event trace is boot, shim install, wheel install — no fetch, no file
write, no patch — and the runtime filesystem stays empty. -/
theorem wheel_path_skips_provisioning :
    (getPyodide initialState envWheelOk).1.pythonModulesLoaded = true
  ∧ (getPyodide initialState envWheelOk).1.fs = []
  ∧ (getPyodide initialState envWheelOk).2.2 =
      [.loadPyodideCall, .httpShimInstall,
       .wheelInstall "https://example.com/dmv_tool.whl"] := by
  exact ⟨rfl, rfl, rfl⟩

/-- C3 (amended): `pythonModulesLoaded` becomes true only when the boot,
the HTTP-shim install, and one package-install strategy succeeded — it is
not gated on provisioning or patching; conversely, a successful wheel
install sets it with provisioning and patching skipped entirely. -/
theorem moduleLoadState_requires_install (env : InitEnv) :
    ((getPyodide initialState env).1.pythonModulesLoaded = true →
       (∃ p, env.loadPyodideResult = .ok p)
     ∧ env.httpShimResult = .ok ()
     ∧ ((∃ u, env.packageUrl = some u ∧ env.wheelInstallResult = .ok ())
        ∨ env.pypiInstallResult = .ok ()))
  ∧ (∀ u p, env.packageUrl = some u → env.loadPyodideResult = .ok p →
       env.httpShimResult = .ok () → env.wheelInstallResult = .ok () →
       (getPyodide initialState env).1.pythonModulesLoaded = true
     ∧ (getPyodide initialState env).1.fs = []
     ∧ Event.patchApplied ∉ (getPyodide initialState env).2.2
     ∧ Event.fsWrite (dataPath "1.2") ∉ (getPyodide initialState env).2.2) := by
  constructor
  · intro hflag
    cases hboot : env.loadPyodideResult with
    | error e => simp [getPyodide, initializePyodide, initialState, hboot] at hflag
    | ok p =>
      refine ⟨⟨p, rfl⟩, ?_⟩
      cases hshim : env.httpShimResult with
      | error e =>
        simp [getPyodide, initializePyodide, initialState, hboot, hshim] at hflag
      | ok u0 =>
        refine ⟨rfl, ?_⟩
        cases hurl : env.packageUrl with
        | none =>
          cases hpypi : env.pypiInstallResult with
          | error e =>
            simp [getPyodide, initializePyodide, loadBundledModules, initialState,
                  hboot, hshim, hurl, hpypi] at hflag
          | ok _ => exact Or.inr rfl
        | some url =>
          cases hw : env.wheelInstallResult with
          | ok _ => exact Or.inl ⟨url, rfl, rfl⟩
          | error e' =>
            cases hpypi : env.pypiInstallResult with
            | error e =>
              simp [getPyodide, initializePyodide, loadBundledModules, initialState,
                    hboot, hshim, hurl, hw, hpypi] at hflag
            | ok _ => exact Or.inr rfl
  · intro u p hu hb hs hw
    refine ⟨?_, ?_, ?_, ?_⟩ <;>
      simp [getPyodide, initializePyodide, initialState, hu, hb, hs, hw]

/-- C3 (witness): the wheel-success run satisfies the amended theorem's
hypotheses and exhibits the flag set with nothing provisioned. -/
theorem moduleLoadState_requires_install_witness :
    (getPyodide initialState envWheelOk).1.pythonModulesLoaded = true
  ∧ (getPyodide initialState envWheelOk).1.fs = []
  ∧ Event.patchApplied ∉ (getPyodide initialState envWheelOk).2.2
  ∧ Event.fsWrite (dataPath "1.2") ∉ (getPyodide initialState envWheelOk).2.2 :=
  (moduleLoadState_requires_install envWheelOk).2
    "https://example.com/dmv_tool.whl" 1 rfl rfl rfl rfl

/-- C4: up to two install strategies, in order.  With a configured package
URL, a failing wheel install is followed by the PyPI attempt (the event
trace shows wheel before PyPI); without one, only the PyPI attempt runs.
When every attempted strategy fails, initialization rejects with the
triggering not-available error, the memoized promise is rejected, and
`pythonModulesLoaded` stays false — no silent partial success. -/
theorem package_install_two_strategies (env : InitEnv) (u : String) (p : Nat)
    (e1 e2 : Err)
    (hb : env.loadPyodideResult = .ok p) (hs : env.httpShimResult = .ok ())
    (hw : env.wheelInstallResult = .error e1)
    (hpy : env.pypiInstallResult = .error e2) :
    (env.packageUrl = some u →
       getPyodide initialState env =
         ({ pyodide := some p, pythonModulesLoaded := false,
            initializationPromise := some (.error packageNotAvailableMsg), fs := [] },
          .error packageNotAvailableMsg,
          [.loadPyodideCall, .httpShimInstall, .wheelInstall u, .pypiInstall]))
  ∧ (env.packageUrl = none →
       getPyodide initialState env =
         ({ pyodide := some p, pythonModulesLoaded := false,
            initializationPromise := some (.error packageNotAvailableMsg), fs := [] },
          .error packageNotAvailableMsg,
          [.loadPyodideCall, .httpShimInstall, .pypiInstall])) := by
  constructor <;> intro hu <;>
    simp [getPyodide, initializePyodide, loadBundledModules, initialState,
          hb, hs, hw, hpy, hu, Except.map]

/-- C4 (witness): the run where the configured wheel 404s and PyPI is down
rejects with the not-available error after attempting both strategies. -/
theorem package_install_two_strategies_witness :
    getPyodide initialState envBothInstallsFail =
      ({ pyodide := some 1, pythonModulesLoaded := false,
         initializationPromise := some (.error packageNotAvailableMsg), fs := [] },
       .error packageNotAvailableMsg,
       [.loadPyodideCall, .httpShimInstall,
        .wheelInstall "https://example.com/dmv_tool.whl", .pypiInstall]) :=
  (package_install_two_strategies envBothInstallsFail
    "https://example.com/dmv_tool.whl" 1 "wheel 404" "pypi down"
    rfl rfl rfl rfl).1 rfl

/-- C5: a per-version fetch failure is skipped, not fatal.  In a bundled-path
run where the fetch for `1.4.1` fails and every other fetch succeeds,
exactly the other six versions' files are written — no extra, no missing —
and initialization still resolves with the handle, the promise fulfilled,
and the modules flag set. -/
theorem fetch_failure_nonfatal (env : InitEnv) (p : Nat) (e : Err)
    (b1 b2 b3 b5 b6 b7 : String)
    (hb : env.loadPyodideResult = .ok p) (hs : env.httpShimResult = .ok ())
    (hu : env.packageUrl = none) (hpy : env.pypiInstallResult = .ok ())
    (hm : env.mkdirResult = .ok ()) (hpa : env.patchResult = .ok ())
    (h1 : env.fetchOutcome "1.2" = .success b1)
    (h2 : env.fetchOutcome "1.3" = .success b2)
    (h3 : env.fetchOutcome "1.4" = .success b3)
    (h4 : env.fetchOutcome "1.4.1" = .failed e)
    (h5 : env.fetchOutcome "1.4.2" = .success b5)
    (h6 : env.fetchOutcome "1.5" = .success b6)
    (h7 : env.fetchOutcome "master" = .success b7) :
    (getPyodide initialState env).1.fs =
      [(dataPath "1.2", b1), (dataPath "1.3", b2), (dataPath "1.4", b3),
       (dataPath "1.4.2", b5), (dataPath "1.5", b6), (dataPath "master", b7)]
  ∧ (getPyodide initialState env).2.1 = .ok p
  ∧ (getPyodide initialState env).1.initializationPromise = some (.ok p)
  ∧ (getPyodide initialState env).1.pythonModulesLoaded = true := by
  refine ⟨?_, ?_, ?_, ?_⟩ <;>
    simp [getPyodide, initializePyodide, loadBundledModules, initialState,
          fetchAllWrites, fetchWritesFor, validationDataVersions,
          hb, hs, hu, hpy, hm, hpa, h1, h2, h3, h4, h5, h6, h7, Except.map]

/-- C5 (witness): the concrete run where only the `1.4.1` fetch fails. -/
theorem fetch_failure_nonfatal_witness :
    (getPyodide initialState env141FetchFail).1.fs =
      [(dataPath "1.2", "data-1.2"), (dataPath "1.3", "data-1.3"),
       (dataPath "1.4", "data-1.4"), (dataPath "1.4.2", "data-1.4.2"),
       (dataPath "1.5", "data-1.5"), (dataPath "master", "data-master")]
  ∧ (getPyodide initialState env141FetchFail).2.1 = .ok 1
  ∧ (getPyodide initialState env141FetchFail).1.initializationPromise = some (.ok 1)
  ∧ (getPyodide initialState env141FetchFail).1.pythonModulesLoaded = true :=
  fetch_failure_nonfatal env141FetchFail 1 "network error"
    "data-1.2" "data-1.3" "data-1.4" "data-1.4.2" "data-1.5" "data-master"
    rfl rfl rfl rfl rfl rfl rfl rfl rfl rfl rfl rfl rfl

/-- C6: the escaping round trip is not the identity.  For the log text
consisting of a single backtick, the text bound to `log_data_str` — and so
handed to `parse_datamodel_logs` — is the two-character string
backslash-backtick, not the original text: the backtick (and dollar-brace)
escapes are JS-template-literal escapes, but the escaped text is
interpolated (inserted verbatim) rather than spliced into literal source,
so Python keeps the backslash of the unrecognized `\`+backtick escape.  A
delegate that accepts only the original text is therefore never handed
it. -/
theorem escaping_corrupts_backtick_text :
    deliveredLogText (String.mk [btChar]) = some (String.mk [bsChar, btChar])
  ∧ String.mk [bsChar, btChar] ≠ String.mk [btChar]
  ∧ (parseDatamodelLogs loadedState parseEnvEcho (String.mk [btChar])).2.1 =
      .error ("Failed to parse logs: " ++ "delegate saw altered text") := by
  refine ⟨by decide, by decide, rfl⟩

/-- C7 (counterexample): `getSupportedVersions` can throw.  In the reachable
state where initialization failed at package install — handle present,
modules not loaded — the ready check sits outside the try/catch, so the call
rejects with the not-loaded error instead of returning the fallback list. -/
theorem getSupportedVersions_throws_when_not_loaded :
    stPypiFail.pyodide = some 1
  ∧ stPypiFail.pythonModulesLoaded = false
  ∧ (getSupportedVersions stPypiFail versionsEnvFail).2.1 = .error notLoadedMsg :=
  ⟨rfl, rfl, rfl⟩

/-- C7 (amended): once the handle is present and the modules are loaded,
`getSupportedVersions` never throws, and on any delegate failure — including
a JSON parse failure of the result — it returns exactly the hardcoded
fallback list. -/
theorem getSupportedVersions_fallback (st : BridgeState) (env : VersionsCallEnv)
    (k : Nat) (hp : st.pyodide = some k) (hl : st.pythonModulesLoaded = true) :
    (∃ v, (getSupportedVersions st env).2.1 = .ok v)
  ∧ (∀ e, env.delegateResult = .error e →
       (getSupportedVersions st env).2.1 = .ok fallbackVersions)
  ∧ (∀ s e, env.delegateResult = .ok s → env.jsonParse s = .error e →
       (getSupportedVersions st env).2.1 = .ok fallbackVersions) := by
  have he := ensurePyodideReady_loaded st env.initEnv k hp hl
  refine ⟨?_, ?_, ?_⟩
  · cases hd : env.delegateResult with
    | error e => exact ⟨fallbackVersions, by simp [getSupportedVersions, he, hd]⟩
    | ok s =>
      cases hj : env.jsonParse s with
      | error e => exact ⟨fallbackVersions, by simp [getSupportedVersions, he, hd, hj]⟩
      | ok v => exact ⟨v, by simp [getSupportedVersions, he, hd, hj]⟩
  · intro e hd
    simp [getSupportedVersions, he, hd]
  · intro s e hd hj
    simp [getSupportedVersions, he, hd, hj]

/-- C7 (witness): in the fully loaded state, a raising delegate and a
non-JSON result both yield exactly the fallback list. -/
theorem getSupportedVersions_fallback_witness :
    (getSupportedVersions loadedState versionsEnvFail).2.1 = .ok fallbackVersions
  ∧ (getSupportedVersions loadedState versionsEnvBadJson).2.1 = .ok fallbackVersions :=
  ⟨(getSupportedVersions_fallback loadedState versionsEnvFail 1 rfl rfl).2.1
     "delegate raised" rfl,
   (getSupportedVersions_fallback loadedState versionsEnvBadJson 1 rfl rfl).2.2
     "not json" "Unexpected token" rfl rfl⟩

/-- C8: once the handle is present and the modules are loaded,
`detectSpecVersion` never throws: it always resolves, and every error on the
marshaling path (`JSON.stringify`) or from the delegate script resolves to
`null` instead of propagating. -/
theorem detectSpecVersion_soft_failure (st : BridgeState) (env : DetectCallEnv)
    (k : Nat) (hp : st.pyodide = some k) (hl : st.pythonModulesLoaded = true) :
    (∃ v, (detectSpecVersion st env).2.1 = .ok v)
  ∧ (∀ e, env.stringifyResult = .error e →
       (detectSpecVersion st env).2.1 = .ok none)
  ∧ (∀ j e, env.stringifyResult = .ok j → env.delegateRaw = .error e →
       (detectSpecVersion st env).2.1 = .ok none) := by
  have he := ensurePyodideReady_loaded st env.initEnv k hp hl
  refine ⟨?_, ?_, ?_⟩
  · cases hst : env.stringifyResult with
    | error e => exact ⟨none, by simp [detectSpecVersion, he, hst]⟩
    | ok j =>
      cases hd : env.delegateRaw with
      | error e => exact ⟨none, by simp [detectSpecVersion, he, hst, hd]⟩
      | ok v =>
        exact ⟨some (pyVersionOrMaster v), by simp [detectSpecVersion, he, hst, hd]⟩
  · intro e hst
    simp [detectSpecVersion, he, hst]
  · intro j e hst hd
    simp [detectSpecVersion, he, hst, hd]

/-- C8 (witness): in the fully loaded state, a raising delegate resolves to
`null`. -/
theorem detectSpecVersion_soft_failure_witness :
    (detectSpecVersion loadedState detectEnvFail).2.1 = .ok none :=
  (detectSpecVersion_soft_failure loadedState detectEnvFail 1 rfl rfl).2.2
    "[]" "delegate raised" rfl rfl

/-- C9: `parseDatamodelLogs` and `validateDeviceConformance` have a
hard-failure contract: when the delegate raises, each rejects with a
descriptive message that carries the delegate's original error text — the
fixed descriptive head concatenated with the original message. -/
theorem hard_failure_error_messages (st : BridgeState) (pe : ParseCallEnv)
    (ve : ValidateCallEnv) (logText sv s pd m : String) (k : Nat)
    (hp : st.pyodide = some k) (hl : st.pythonModulesLoaded = true) :
    (deliveredLogText logText = some s → pe.delegate s = .error m →
       (parseDatamodelLogs st pe logText).2.1 =
         .error ("Failed to parse logs: " ++ m))
  ∧ (ve.stringifyResult = .ok pd → ve.delegate pd sv = .error m →
       (validateDeviceConformance st ve sv).2.1 =
         .error ("Validation failed: " ++ m)) := by
  have hep := ensurePyodideReady_loaded st pe.initEnv k hp hl
  have hev := ensurePyodideReady_loaded st ve.initEnv k hp hl
  constructor
  · intro hd hdel
    simp [parseDatamodelLogs, hep, hd, hdel]
  · intro hst hdel
    simp [validateDeviceConformance, hev, hst, hdel]

/-- C9 (witness): with raising delegates in the loaded state, both wrappers
reject with the delegate's message embedded. -/
theorem hard_failure_error_messages_witness :
    (parseDatamodelLogs loadedState parseEnvFail "hello").2.1 =
      .error ("Failed to parse logs: " ++ "boom")
  ∧ (validateDeviceConformance loadedState validateEnvFail "1.4").2.1 =
      .error ("Validation failed: " ++ "boom") :=
  ⟨(hard_failure_error_messages loadedState parseEnvFail validateEnvFail
      "hello" "1.4" "hello" "[]" "boom" 1 rfl rfl).1 rfl rfl,
   (hard_failure_error_messages loadedState parseEnvFail validateEnvFail
      "hello" "1.4" "hello" "[]" "boom" 1 rfl rfl).2 rfl rfl⟩

/-- C10: when the delegate completes without error but returns a falsy value
(Python `None` or the empty string), `detectSpecVersion` resolves to the
string `master` — the script's final expression is
`version if version else "master"` — and `null` is possible only on the
error path: a successful delegate never yields `null`. -/
theorem detect_falsy_yields_master (st : BridgeState) (env : DetectCallEnv)
    (j : String) (k : Nat)
    (hp : st.pyodide = some k) (hl : st.pythonModulesLoaded = true)
    (hst : env.stringifyResult = .ok j) :
    (env.delegateRaw = .ok none →
       (detectSpecVersion st env).2.1 = .ok (some "master"))
  ∧ (env.delegateRaw = .ok (some "") →
       (detectSpecVersion st env).2.1 = .ok (some "master"))
  ∧ (∀ v, env.delegateRaw = .ok v → (detectSpecVersion st env).2.1 ≠ .ok none) := by
  have he := ensurePyodideReady_loaded st env.initEnv k hp hl
  refine ⟨?_, ?_, ?_⟩
  · intro hd
    simp [detectSpecVersion, he, hst, hd, pyVersionOrMaster]
  · intro hd
    simp [detectSpecVersion, he, hst, hd, pyVersionOrMaster]
  · intro v hd
    simp [detectSpecVersion, he, hst, hd]

/-- C10 (witness): in the loaded state, a delegate returning `None` yields
the string `master`. -/
theorem detect_falsy_yields_master_witness :
    (detectSpecVersion loadedState detectEnvNone).2.1 = .ok (some "master") :=
  (detect_falsy_yields_master loadedState detectEnvNone "[]" 1 rfl rfl rfl).1 rfl

end PyBridge
